import Mathlib

/-!
Shallow embedding of the SMS forwarding dispatcher (`SMSForwarderService`)
and verification of its specification.

The dispatcher is a singleton holding an in-memory running flag, a loaded
configuration snapshot and a list of error listeners; it persists the running
flag and a forwarded-message counter in a key/value store (`AsyncStorage`).
External effects (the store, `fetch`, `JSON.parse` of the header text, locale
date formatting, the current time) are modelled as explicit state or as an
environment of oracles; each service method becomes a pure function from the
service state (and environment) to the new state together with the traces of
network calls and emitted error events.
-/

namespace SMSForwarder

/-- One inbound text message (interface `SMSMessage`). -/
structure SMSMessage where
  body : String
  address : String
  date : String
  dateSent : String
deriving DecidableEq

/-- Destination settings (interface `ConfigData`).  In `ConfigSlot.value`
below the fields hold the stored JSON values after the JavaScript coercions
`Boolean(x)` / `String(x || ...)` to `Bool` / `String`; those coercions are the
identity on booleans and strings except for the header-text default, which is
applied in `loadConfig`. -/
structure ConfigData where
  restApiEnabled : Bool
  restApiUrl : String
  restApiHeaders : String
  telegramEnabled : Bool
  telegramBotToken : String
  telegramChatId : String
deriving DecidableEq

/-- An emitted error event (interface `ErrorEvent`); `type` is the category
tag, one of the string literals `"telegram"`, `"restapi"`, `"general"`. -/
structure ErrorEvent where
  type : String
  message : String
  timestamp : String
deriving DecidableEq

/-- Outcome of reading and JSON-decoding the stored configuration under the
key `smsForwarderConfig`: the store read may throw, the value may be absent
(`getItem` returns null), `JSON.parse` may throw, or a decoded value is
obtained. -/
inductive ConfigSlot where
  | readError
  | absent
  | parseError
  | value (raw : ConfigData)
deriving DecidableEq

/-- The persistent key/value store together with injected failures of the
individual store operations the service performs (a failing operation rejects
and is seen as a thrown error by the caller). -/
structure Store where
  configSlot : ConfigSlot
  runningSlot : Option String
  countSlot : Option String
  failSetRunning : Bool
  failSetCount : Bool
  failGetCount : Bool
deriving DecidableEq

/-- In-memory state of the `SMSForwarderService` singleton plus the store.
Listeners are identified by reference; we model references as `Nat`. -/
structure ServiceState where
  isRunning : Bool
  config : Option ConfigData
  errorListeners : List Nat
  store : Store
deriving DecidableEq

/-- The default header text `'\x7b"Content-Type": "application/json"\x7d'`. -/
def defaultHeadersText : String :=
  "\x7b\"Content-Type\": \"application/json\"\x7d"

/-- The configuration installed by `loadConfig` when no value is stored. -/
def defaultConfig : ConfigData :=
  { restApiEnabled := false
    restApiUrl := ""
    restApiHeaders := defaultHeadersText
    telegramEnabled := false
    telegramBotToken := ""
    telegramChatId := "" }

/-- JavaScript `String(x || dflt)` on a string `x`: the default replaces the
empty (falsy) string. -/
def jsStringOr (s dflt : String) : String :=
  if s = "" then dflt else s

/-- Field coercion applied by `loadConfig` to a decoded configuration value:
`String(parsedConfig.restApiHeaders || defaultHeadersText)` — every other
field coercion is the identity on its `Bool`/`String` value. -/
def coerceLoadedConfig (raw : ConfigData) : ConfigData :=
  { raw with restApiHeaders := jsStringOr raw.restApiHeaders defaultHeadersText }

/-- Method `loadConfig`: read `smsForwarderConfig` from the store; on a read or JSON
parse failure the method throws (error result) and the in-memory config is
left unchanged; otherwise the config snapshot is replaced wholesale. -/
def loadConfig (st : ServiceState) : Except Unit ServiceState :=
  match st.store.configSlot with
  | ConfigSlot.readError => Except.error ()
  | ConfigSlot.parseError => Except.error ()
  | ConfigSlot.absent => Except.ok { st with config := some defaultConfig }
  | ConfigSlot.value raw => Except.ok { st with config := some (coerceLoadedConfig raw) }

/-- The configuration `loadConfig` would install, as a function of the store
(`none` when `loadConfig` throws). -/
def loadedConfigOpt (store : Store) : Option ConfigData :=
  match store.configSlot with
  | ConfigSlot.readError => none
  | ConfigSlot.parseError => none
  | ConfigSlot.absent => some defaultConfig
  | ConfigSlot.value raw => some (coerceLoadedConfig raw)

/-- Whitespace for the purposes of JavaScript `String.prototype.trim`
(restricted to the ASCII whitespace characters that occur in practice). -/
def jsWhitespace (c : Char) : Bool :=
  c = ' ' || c = '\t' || c = '\n' || c = '\r' || c = '\x0b' || c = '\x0c'

/-- JavaScript `s.trim()`: strip leading and trailing whitespace. -/
def jsTrim (s : String) : String :=
  ⟨((s.data.dropWhile jsWhitespace).reverse.dropWhile jsWhitespace).reverse⟩

/-- The `restApiValid` conjunct of `isConfigurationValidSync`:
`Boolean(restApiEnabled && restApiUrl && restApiUrl.trim() !== '')`. -/
def restApiValid (c : ConfigData) : Bool :=
  c.restApiEnabled && c.restApiUrl != "" && jsTrim c.restApiUrl != ""

/-- The `telegramValid` conjunct of `isConfigurationValidSync`. -/
def telegramValid (c : ConfigData) : Bool :=
  c.telegramEnabled && c.telegramBotToken != "" && jsTrim c.telegramBotToken != ""
    && c.telegramChatId != "" && jsTrim c.telegramChatId != ""

/-- Method `isConfigurationValidSync`: false when no config is loaded, otherwise at
least one destination must be valid. -/
def isConfigurationValidSync (config : Option ConfigData) : Bool :=
  match config with
  | none => false
  | some c => restApiValid c || telegramValid c

/-- Method `isConfigurationValid`: reload the configuration, then check it; any load
error is caught and yields `false` (with the state unchanged). Returns the
boolean result together with the state after the reload. -/
def isConfigurationValidRun (st : ServiceState) : Bool × ServiceState :=
  match loadConfig st with
  | Except.error _ => (false, st)
  | Except.ok st1 => (isConfigurationValidSync st1.config, st1)

/-- Method `start()`: reload the configuration (rethrowing load errors); if the
loaded configuration is not valid, return without error and without touching
the running flag; otherwise set the in-memory flag true and persist `"true"`
under `smsForwarderRunning` (a persist failure is rethrown, after the
in-memory flag was already set). -/
def start (st : ServiceState) : ServiceState × Except Unit Unit :=
  match loadConfig st with
  | Except.error _ => (st, Except.error ())
  | Except.ok st1 =>
    if isConfigurationValidSync st1.config = false then
      (st1, Except.ok ())
    else
      let st2 := { st1 with isRunning := true }
      if st2.store.failSetRunning then
        (st2, Except.error ())
      else
        ({ st2 with store := { st2.store with runningSlot := some "true" } }, Except.ok ())

/-- Method `stop()`: set the in-memory flag false, then persist `"false"` under
`smsForwarderRunning`; a persist failure is not caught, so it propagates to
the caller, but the in-memory flag is already false. -/
def stop (st : ServiceState) : ServiceState × Except Unit Unit :=
  let st1 := { st with isRunning := false }
  if st1.store.failSetRunning then
    (st1, Except.error ())
  else
    ({ st1 with store := { st1.store with runningSlot := some "false" } }, Except.ok ())

/-- Method `isServiceRunning()`. -/
def isServiceRunning (st : ServiceState) : Bool :=
  st.isRunning

/-- Method `addErrorListener`: push the listener reference. -/
def addErrorListener (st : ServiceState) (l : Nat) : ServiceState :=
  { st with errorListeners := st.errorListeners ++ [l] }

/-- Method `removeErrorListener`: filter out every occurrence of the reference. -/
def removeErrorListener (st : ServiceState) (l : Nat) : ServiceState :=
  { st with errorListeners := st.errorListeners.filter (fun x => x != l) }

/-- Delivery trace of `emitError` for a whole forwarding call, restricted to
one listener reference: for each emitted event (in emission order),
`emitError` invokes every entry of the listener list once, so the listener
receives one copy of the event per occurrence of its reference in the list
(listener exceptions are caught inside `emitError` and do not affect this). -/
def callsTo (l : Nat) (listeners : List Nat) (evs : List ErrorEvent) : List ErrorEvent :=
  evs.flatMap (fun e => (listeners.filter (fun x => x == l)).map (fun _ => e))

/-- Outcome of a `fetch` against the REST endpoint: either the promise
rejects (network/transport error, carrying the thrown error's message), or a
response arrives with its `ok` flag (true exactly for a 2xx status) and
status code. -/
inductive FetchOutcome where
  | networkError (msg : String)
  | response (ok : Bool) (status : Nat)
deriving DecidableEq

/-- JSON body of a Telegram API response: its success flag `ok` and optional
`description` field. -/
structure TelegramBody where
  okFlag : Bool
  description : Option String
deriving DecidableEq

/-- Result of `response.json()` on a Telegram response: the parse may itself
throw (carrying the thrown error's message) or produce a body. -/
inductive TgBodyParse where
  | failed (msg : String)
  | parsed (body : TelegramBody)
deriving DecidableEq

/-- Outcome of a `fetch` against the Telegram API. -/
inductive TelegramOutcome where
  | networkError (msg : String)
  | response (ok : Bool) (status : Nat) (body : TgBodyParse)
deriving DecidableEq

/-- JSON payload POSTed to the REST endpoint by `forwardToRestAPI`. -/
structure RestPayload where
  message : String
  sender : String
  timestamp : String
  dateSent : String
  receivedAt : String
deriving DecidableEq

/-- A network call issued by the dispatcher. -/
inductive NetCall where
  | restPost (url : String) (headers : List (String × String)) (payload : RestPayload)
  | telegramPost (botToken : String) (chatId : String) (text : String)
deriving DecidableEq

/-- Environment of external oracles for one forwarding call: the result of
`JSON.parse` on the configured header text (an exception carries its
message), the locale rendering `new Date(parseInt(s)).toLocaleString()` of a
raw timestamp string, the current time `new Date().toISOString()`, and the
two `fetch` oracles. -/
structure Env where
  parseJsonHeaders : String → Except String (List (String × String))
  formatDateLocale : String → String
  nowISO : String
  restFetch : String → List (String × String) → RestPayload → FetchOutcome
  telegramFetch : String → String → String → TelegramOutcome

/-- The payload built by `forwardToRestAPI`. -/
def restPayload (sms : SMSMessage) (nowISO : String) : RestPayload :=
  { message := sms.body
    sender := sms.address
    timestamp := sms.date
    dateSent := sms.dateSent
    receivedAt := nowISO }

/-- Method `forwardToRestAPI`: parse the header text (a parse failure is caught and
emitted as a `"restapi"` error without any network call); POST the payload to
the configured URL; a rejected fetch or a non-2xx response is caught and
emitted as a `"restapi"` error.  Returns the network calls issued and the
error events emitted. -/
def forwardToRestAPI (config : Option ConfigData) (sms : SMSMessage) (env : Env) :
    List NetCall × List ErrorEvent :=
  match config with
  | none => ([], [])
  | some cfg =>
    match env.parseJsonHeaders cfg.restApiHeaders with
    | Except.error e =>
      ([], [⟨"restapi", "Error forwarding to REST API: " ++ e, env.nowISO⟩])
    | Except.ok headers =>
      let payload := restPayload sms env.nowISO
      let call := NetCall.restPost cfg.restApiUrl headers payload
      match env.restFetch cfg.restApiUrl headers payload with
      | FetchOutcome.networkError m =>
        ([call], [⟨"restapi", "Error forwarding to REST API: " ++ m, env.nowISO⟩])
      | FetchOutcome.response ok status =>
        if ok then ([call], [])
        else
          ([call], [⟨"restapi",
            "Error forwarding to REST API: REST API request failed: " ++ toString status,
            env.nowISO⟩])

/-- The Markdown text built by `forwardToTelegram`; the rendered date is
`new Date(parseInt(sms.date)).toLocaleString()`, i.e. derived from the
message's `date` field. -/
def telegramText (sms : SMSMessage) (env : Env) : String :=
  "📱 *New SMS Received*\n\n" ++
  "📞 *From:* " ++ sms.address ++ "\n" ++
  "📅 *Date:* " ++ env.formatDateLocale sms.date ++ "\n" ++
  "💬 *Message:*\n" ++ sms.body

/-- Method `forwardToTelegram`: POST the built text with the configured chat id to
the bot's sendMessage endpoint.  On a non-2xx response the body is read and
an error is thrown with the body's `description` field when that is present
and non-empty (truthy), else the status; every thrown error is caught and
emitted as a `"telegram"` error event.  A 2xx response is treated as success
without reading the body. -/
def forwardToTelegram (config : Option ConfigData) (sms : SMSMessage) (env : Env) :
    List NetCall × List ErrorEvent :=
  match config with
  | none => ([], [])
  | some cfg =>
    let text := telegramText sms env
    let call := NetCall.telegramPost cfg.telegramBotToken cfg.telegramChatId text
    match env.telegramFetch cfg.telegramBotToken cfg.telegramChatId text with
    | TelegramOutcome.networkError m =>
      ([call], [⟨"telegram", "Error forwarding to Telegram: " ++ m, env.nowISO⟩])
    | TelegramOutcome.response ok status body =>
      if ok then ([call], [])
      else
        match body with
        | TgBodyParse.failed m =>
          ([call], [⟨"telegram", "Error forwarding to Telegram: " ++ m, env.nowISO⟩])
        | TgBodyParse.parsed b =>
          let detail :=
            match b.description with
            | some d => if d = "" then toString status else d
            | none => toString status
          ([call], [⟨"telegram",
            "Error forwarding to Telegram: Telegram API request failed: " ++ detail,
            env.nowISO⟩])

/-- Leading decimal digits of a character list. -/
def leadingDigits (cs : List Char) : List Char :=
  cs.takeWhile (fun c => c.isDigit)

/-- Numeric value of a list of decimal digits. -/
def digitsToNat (ds : List Char) : Nat :=
  ds.foldl (fun acc c => acc * 10 + (c.toNat - Char.toNat '0')) 0

/-- JavaScript `parseInt(s)` (radix 10): skip leading whitespace, accept an
optional sign, read the leading run of decimal digits, ignore the rest;
`none` models `NaN` (no digits found). -/
def jsParseInt (s : String) : Option Int :=
  let cs := s.data.dropWhile (fun c => c = ' ' || c = '\t' || c = '\n' || c = '\r')
  match cs with
  | '-' :: rest =>
    let ds := leadingDigits rest
    if ds.isEmpty then none else some (-(Int.ofNat (digitsToNat ds)))
  | '+' :: rest =>
    let ds := leadingDigits rest
    if ds.isEmpty then none else some (Int.ofNat (digitsToNat ds))
  | _ =>
    let ds := leadingDigits cs
    if ds.isEmpty then none else some (Int.ofNat (digitsToNat ds))

/-- The string `currentCount || '0'` read by `incrementSMSCount`: `getItem`
returning null, or the empty (falsy) string, is replaced by `"0"`. -/
def currentCountString (store : Store) : String :=
  match store.countSlot with
  | none => "0"
  | some s => if s = "" then "0" else s

/-- Method `incrementSMSCount`: read `smsForwardedCount`, add one to its
`parseInt` value (`NaN` propagates as the string `"NaN"`), write it back;
read and write failures are caught and swallowed, leaving the state
unchanged. -/
def incrementSMSCount (st : ServiceState) : ServiceState :=
  if st.store.failGetCount then st
  else
    let newCount :=
      match jsParseInt (currentCountString st.store) with
      | some i => toString (i + 1)
      | none => "NaN"
    if st.store.failSetCount then st
    else { st with store := { st.store with countSlot := some newCount } }

/-- The two destinations a forwarding call can schedule. -/
inductive Dest where
  | rest
  | telegram
deriving DecidableEq

/-- Result of one `forwardSMS` call: the new service state, the list of
destination sends pushed onto the `promises` array, and the traces of network
calls and emitted error events. -/
structure ForwardResult where
  state : ServiceState
  scheduled : List Dest
  calls : List NetCall
  events : List ErrorEvent
deriving DecidableEq

/-- Dispatch of one scheduled destination send. -/
def runDest (config : Option ConfigData) (sms : SMSMessage) (env : Env) :
    Dest → List NetCall × List ErrorEvent
  | Dest.rest => forwardToRestAPI config sms env
  | Dest.telegram => forwardToTelegram config sms env

/-- Method `forwardSMS`: return immediately when the service is not running or no
configuration is loaded; otherwise push a REST send when
`restApiEnabled && restApiUrl` is truthy and a Telegram send when
`telegramEnabled && telegramBotToken` is truthy, await all of them
(`Promise.allSettled` — the sends themselves never reject), then increment
the persisted counter. -/
def forwardSMS (st : ServiceState) (sms : SMSMessage) (env : Env) : ForwardResult :=
  match st.isRunning, st.config with
  | false, _ => ⟨st, [], [], []⟩
  | true, none => ⟨st, [], [], []⟩
  | true, some cfg =>
    let promises : List Dest :=
      (if cfg.restApiEnabled && cfg.restApiUrl != "" then [Dest.rest] else []) ++
      (if cfg.telegramEnabled && cfg.telegramBotToken != "" then [Dest.telegram] else [])
    let results := promises.map (runDest st.config sms env)
    ⟨incrementSMSCount st, promises, (results.map Prod.fst).flatten, (results.map Prod.snd).flatten⟩

/-! Concrete fixtures used to instantiate the theorems below. -/

/-- The concrete message of the spec's example scenario. -/
def msg0 : SMSMessage :=
  { body := "hi", address := "+15551234567", date := "1700000000000", dateSent := "1700000000000" }

/-- A message whose received-at and sent-at timestamps differ. -/
def msg7 : SMSMessage :=
  { body := "b", address := "a", date := "111", dateSent := "222" }

/-- A clean store: nothing persisted, no injected failures. -/
def store0 : Store :=
  { configSlot := ConfigSlot.absent, runningSlot := none, countSlot := none,
    failSetRunning := false, failSetCount := false, failGetCount := false }

/-- An environment in which every external operation succeeds. -/
def trivialEnv : Env :=
  { parseJsonHeaders := fun _ => Except.ok []
    formatDateLocale := fun s => s
    nowISO := "2026-01-01T00:00:00.000Z"
    restFetch := fun _ _ _ => FetchOutcome.response true 200
    telegramFetch := fun _ _ _ => TelegramOutcome.response true 200 (TgBodyParse.parsed ⟨true, none⟩) }

/-- An environment in which both fetches reject with a network error. -/
def failEnv : Env :=
  { trivialEnv with
    restFetch := fun _ _ _ => FetchOutcome.networkError "Network request failed"
    telegramFetch := fun _ _ _ => TelegramOutcome.networkError "Network request failed" }

/-- An environment whose header-text parse fails on `"\x7binvalid json"`. -/
def badParseEnv : Env :=
  { trivialEnv with
    parseJsonHeaders := fun s =>
      if s = "\x7binvalid json" then Except.error "Unexpected token" else Except.ok [] }

/-- An environment returning a 2xx Telegram response whose body carries a
false success flag, and rendering dates as `"D:" ++ raw`. -/
def bodyNotOkEnv : Env :=
  { trivialEnv with
    formatDateLocale := fun s => "D:" ++ s
    telegramFetch := fun _ _ _ =>
      TelegramOutcome.response true 200 (TgBodyParse.parsed ⟨false, none⟩) }

/-- A configuration with both destinations active (also after trimming). -/
def cfgBoth : ConfigData :=
  { restApiEnabled := true, restApiUrl := "https://example.test/sms",
    restApiHeaders := defaultHeadersText,
    telegramEnabled := true, telegramBotToken := "tok", telegramChatId := "chat" }

/-- Both destinations enabled, the REST URL only whitespace and the Telegram
chat id empty: neither destination is valid, yet both dispatch guards pass. -/
def cfgWhitespace : ConfigData :=
  { restApiEnabled := true, restApiUrl := " ",
    restApiHeaders := defaultHeadersText,
    telegramEnabled := true, telegramBotToken := "tok", telegramChatId := "" }

/-- Both destinations failing the dispatch guards. -/
def cfgNoDest : ConfigData :=
  { restApiEnabled := false, restApiUrl := "https://example.test/sms",
    restApiHeaders := defaultHeadersText,
    telegramEnabled := true, telegramBotToken := "", telegramChatId := "chat" }

/-- Configuration `cfgBoth` with the unparseable header text of the spec's example. -/
def cfgBadHeaders : ConfigData :=
  { cfgBoth with restApiHeaders := "\x7binvalid json" }

/-- A running dispatcher with `cfgBoth` loaded and one registered listener. -/
def stRunning : ServiceState :=
  { isRunning := true, config := some cfgBoth, errorListeners := [7], store := store0 }

/-- A stopped dispatcher with a configuration loaded. -/
def stStopped : ServiceState :=
  { isRunning := false, config := some cfgBoth, errorListeners := [7], store := store0 }

/-- A running dispatcher whose stored (and loaded) configuration is invalid:
nothing is stored, so `loadConfig` installs the default configuration. -/
def stRunningInvalid : ServiceState :=
  { isRunning := true, config := some defaultConfig, errorListeners := [], store := store0 }

/-- A stopped dispatcher whose store holds the valid configuration `cfgBoth`. -/
def stStoppedValid : ServiceState :=
  { isRunning := false, config := none, errorListeners := [],
    store := { store0 with configSlot := ConfigSlot.value cfgBoth } }

/-- A running dispatcher with `cfgWhitespace` loaded. -/
def stWhitespace : ServiceState :=
  { isRunning := true, config := some cfgWhitespace, errorListeners := [], store := store0 }

/-- A running dispatcher with `cfgNoDest` loaded and a stored counter. -/
def stNoDest : ServiceState :=
  { isRunning := true, config := some cfgNoDest, errorListeners := [],
    store := { store0 with countSlot := some "5" } }

/-- A dispatcher whose store rejects the running-flag and counter writes,
with the valid configuration `cfgBoth` stored. -/
def stPersistFail : ServiceState :=
  { isRunning := false, config := none, errorListeners := [],
    store := { configSlot := ConfigSlot.value cfgBoth, runningSlot := none, countSlot := none,
               failSetRunning := true, failSetCount := true, failGetCount := false } }

/-! Helper lemmas shared by the claim theorems. -/

theorem jsTrim_empty : jsTrim "" = "" := by decide

theorem ne_empty_of_jsTrim_ne {s : String} (h : jsTrim s ≠ "") : s ≠ "" := by
  intro he
  rw [he, jsTrim_empty] at h
  exact h rfl

theorem restApiValid_iff (c : ConfigData) :
    restApiValid c = true ↔ (c.restApiEnabled = true ∧ jsTrim c.restApiUrl ≠ "") := by
  unfold restApiValid
  simp only [Bool.and_eq_true, bne_iff_ne, ne_eq, and_assoc]
  constructor
  · rintro ⟨h1, _, h3⟩
    exact ⟨h1, h3⟩
  · rintro ⟨h1, h3⟩
    exact ⟨h1, ne_empty_of_jsTrim_ne h3, h3⟩

theorem telegramValid_iff (c : ConfigData) :
    telegramValid c = true ↔
      (c.telegramEnabled = true ∧ jsTrim c.telegramBotToken ≠ "" ∧
       jsTrim c.telegramChatId ≠ "") := by
  unfold telegramValid
  simp only [Bool.and_eq_true, bne_iff_ne, ne_eq, and_assoc]
  constructor
  · rintro ⟨h1, _, h3, _, h5⟩
    exact ⟨h1, h3, h5⟩
  · rintro ⟨h1, h3, h5⟩
    exact ⟨h1, ne_empty_of_jsTrim_ne h3, h3, ne_empty_of_jsTrim_ne h5, h5⟩

theorem incrementSMSCount_eq (st : ServiceState) (n : Int)
    (hg : st.store.failGetCount = false) (hs : st.store.failSetCount = false)
    (hp : jsParseInt (currentCountString st.store) = some n) :
    incrementSMSCount st =
      { st with store := { st.store with countSlot := some (toString (n + 1)) } } := by
  unfold incrementSMSCount
  rw [hg]
  simp [hs, hp]

theorem forwardToRestAPI_events_shape (config : Option ConfigData) (sms : SMSMessage)
    (env : Env) :
    (forwardToRestAPI config sms env).2 = [] ∨
    ∃ m, (forwardToRestAPI config sms env).2 = [⟨"restapi", m, env.nowISO⟩] := by
  unfold forwardToRestAPI
  rcases config with _ | cfg
  · exact Or.inl rfl
  · rcases hp : env.parseJsonHeaders cfg.restApiHeaders with e | hd
    · simp only [hp]
      exact Or.inr ⟨_, rfl⟩
    · rcases hf : env.restFetch cfg.restApiUrl hd (restPayload sms env.nowISO) with m | ⟨ok, status⟩
      · simp only [hp, hf]
        exact Or.inr ⟨_, rfl⟩
      · rcases ok with _ | _
        · simp only [hp, hf, Bool.false_eq_true, if_false]
          exact Or.inr ⟨_, rfl⟩
        · simp only [hp, hf, if_true]
          exact Or.inl trivial

theorem forwardToTelegram_events_shape (config : Option ConfigData) (sms : SMSMessage)
    (env : Env) :
    (forwardToTelegram config sms env).2 = [] ∨
    ∃ m, (forwardToTelegram config sms env).2 = [⟨"telegram", m, env.nowISO⟩] := by
  unfold forwardToTelegram
  rcases config with _ | cfg
  · exact Or.inl rfl
  · rcases hf : env.telegramFetch cfg.telegramBotToken cfg.telegramChatId
        (telegramText sms env) with m | ⟨ok, status, body⟩
    · simp only [hf]
      exact Or.inr ⟨_, rfl⟩
    · rcases ok with _ | _
      · rcases body with m | b
        · simp only [hf, Bool.false_eq_true, if_false]
          exact Or.inr ⟨_, rfl⟩
        · simp only [hf, Bool.false_eq_true, if_false]
          exact Or.inr ⟨_, rfl⟩
      · simp only [hf, if_true]
        exact Or.inl trivial

theorem filter_beq_eq_singleton (l : Nat) (ls : List Nat) (hm : l ∈ ls) (hnd : ls.Nodup) :
    ls.filter (fun x => x == l) = [l] := by
  induction ls with
  | nil => cases hm
  | cons a t ih =>
    rw [List.nodup_cons] at hnd
    rcases hnd with ⟨hna, hnt⟩
    by_cases ha : a = l
    · subst ha
      have ht : t.filter (fun x => x == a) = [] := by
        rw [List.filter_eq_nil_iff]
        intro x hx
        simp only [beq_iff_eq]
        intro hxa
        exact hna (hxa ▸ hx)
      simp [List.filter_cons, ht]
    · have hmt : l ∈ t := by
        rcases List.mem_cons.mp hm with h | h
        · exact absurd h.symm ha
        · exact h
      have ht := ih hmt hnt
      simp [List.filter_cons, ha, ht]

theorem callsTo_of_filter (l : Nat) (ls : List Nat) (evs : List ErrorEvent)
    (h : ls.filter (fun x => x == l) = [l]) :
    callsTo l ls evs = evs := by
  unfold callsTo
  simp only [h, List.map_const]
  induction evs with
  | nil => rfl
  | cons e t ih => simp_all

theorem forwardSMS_running (st : ServiceState) (cfg : ConfigData) (sms : SMSMessage)
    (env : Env) (hrun : st.isRunning = true) (hcfg : st.config = some cfg) :
    forwardSMS st sms env =
      ⟨incrementSMSCount st,
       (if cfg.restApiEnabled && cfg.restApiUrl != "" then [Dest.rest] else []) ++
         (if cfg.telegramEnabled && cfg.telegramBotToken != "" then [Dest.telegram] else []),
       ((((if cfg.restApiEnabled && cfg.restApiUrl != "" then [Dest.rest] else []) ++
          (if cfg.telegramEnabled && cfg.telegramBotToken != "" then [Dest.telegram] else [])).map
            (runDest (some cfg) sms env)).map Prod.fst).flatten,
       ((((if cfg.restApiEnabled && cfg.restApiUrl != "" then [Dest.rest] else []) ++
          (if cfg.telegramEnabled && cfg.telegramBotToken != "" then [Dest.telegram] else [])).map
            (runDest (some cfg) sms env)).map Prod.snd).flatten⟩ := by
  unfold forwardSMS
  rw [hrun, hcfg]

/-! Claim theorems. -/

/-- C2: `isConfigurationValid` returns true iff the stored configuration is
present, readable and decodable, and (the REST-enabled flag is true and the
REST URL is non-empty after trimming) or (the Telegram-enabled flag is true
and the bot token and chat id are non-empty after trimming); in every other
case — nothing stored, a store read failure, a decode failure — it returns
false. -/
theorem isConfigurationValid_iff_active (st : ServiceState) :
    (isConfigurationValidRun st).1 = true ↔
      ∃ raw, st.store.configSlot = ConfigSlot.value raw ∧
        ((raw.restApiEnabled = true ∧ jsTrim raw.restApiUrl ≠ "") ∨
         (raw.telegramEnabled = true ∧ jsTrim raw.telegramBotToken ≠ "" ∧
          jsTrim raw.telegramChatId ≠ "")) := by
  unfold isConfigurationValidRun loadConfig
  rcases hslot : st.store.configSlot with _ | _ | _ | raw
  · simp [hslot]
  · simp [hslot, isConfigurationValidSync, defaultConfig, restApiValid, telegramValid]
  · simp [hslot]
  · simp only [hslot]
    simp [isConfigurationValidSync, Bool.or_eq_true, restApiValid_iff, telegramValid_iff,
      coerceLoadedConfig]

/-- C5: `forwardSMS` on a dispatcher that is not running, or that has no
configuration loaded, is a no-op: it returns without error, schedules no
send, issues no network call, emits no error event, and leaves the whole
state — in particular the persisted counter — unchanged. -/
theorem forwardSMS_stopped_noop (st : ServiceState) (sms : SMSMessage) (env : Env)
    (h : st.isRunning = false ∨ st.config = none) :
    forwardSMS st sms env = ⟨st, [], [], []⟩ := by
  rcases h with h | h
  · unfold forwardSMS
    rw [h]
  · unfold forwardSMS
    rw [h]
    cases st.isRunning <;> rfl

theorem forwardSMS_stopped_noop_witness :
    (stStopped.isRunning = false ∨ stStopped.config = none) ∧
    forwardSMS stStopped msg0 trivialEnv = ⟨stStopped, [], [], []⟩ :=
  ⟨Or.inl (by decide),
   forwardSMS_stopped_noop stStopped msg0 trivialEnv (Or.inl (by decide))⟩

/-- C8: from every dispatcher state (with the flag write succeeding),
`stop()` sets the in-memory running flag false, persists `"false"` under the
running-flag key, returns without error, and a second `stop()` leaves
exactly the state of the first (idempotence). -/
theorem stop_spec (st : ServiceState) (hw : st.store.failSetRunning = false) :
    (stop st).1.isRunning = false ∧
    (stop st).1.store.runningSlot = some "false" ∧
    (stop st).2 = Except.ok () ∧
    (stop (stop st).1).1 = (stop st).1 := by
  unfold stop
  simp [hw]

theorem stop_spec_witness :
    stRunning.store.failSetRunning = false ∧
    ((stop stRunning).1.isRunning = false ∧
     (stop stRunning).1.store.runningSlot = some "false" ∧
     (stop stRunning).2 = Except.ok () ∧
     (stop (stop stRunning).1).1 = (stop stRunning).1) :=
  ⟨by decide, stop_spec stRunning (by decide)⟩

/-- C3 (amended): on a stopped dispatcher whose stored configuration is
loadable and whose flag write succeeds, `start()` first reloads the
configuration; if the loaded configuration is invalid it returns without
error, leaving the running flag unchanged — hence false — and the store
untouched; otherwise it sets the running flag true and persists `"true"`
under the running-flag key; consequently the running flag immediately after
`start()` equals the validity predicate at call time.  (On an
already-running dispatcher the invalid branch leaves the flag true, see the
counterexample.) -/
theorem start_spec (st : ServiceState)
    (hstop : st.isRunning = false)
    (hload : st.store.configSlot ≠ ConfigSlot.readError ∧
             st.store.configSlot ≠ ConfigSlot.parseError)
    (hw : st.store.failSetRunning = false) :
    (start st).1.config = loadedConfigOpt st.store ∧
    (start st).2 = Except.ok () ∧
    (start st).1.isRunning = (isConfigurationValidRun st).1 ∧
    ((isConfigurationValidRun st).1 = true →
      (start st).1.store.runningSlot = some "true") ∧
    ((isConfigurationValidRun st).1 = false → (start st).1.store = st.store) := by
  rcases hslot : st.store.configSlot with _ | _ | _ | raw
  · exact absurd hslot hload.1
  · simp [start, loadConfig, isConfigurationValidRun, loadedConfigOpt, hslot, hstop,
      isConfigurationValidSync, defaultConfig, restApiValid, telegramValid]
  · exact absurd hslot hload.2
  · by_cases hv : isConfigurationValidSync (some (coerceLoadedConfig raw)) = true
    · simp [start, loadConfig, isConfigurationValidRun, loadedConfigOpt, hslot, hstop, hw, hv]
    · rw [Bool.not_eq_true] at hv
      simp [start, loadConfig, isConfigurationValidRun, loadedConfigOpt, hslot, hstop, hv]

/-- C3 counterexample: on an already-running dispatcher whose stored
configuration is invalid (nothing stored, so the default configuration is
loaded), `start()` returns with the running flag still true even though the
validity predicate is false at call time. -/
theorem start_counterexample :
    (start stRunningInvalid).1.isRunning = true ∧
    (isConfigurationValidRun stRunningInvalid).1 = false := by decide

theorem start_spec_witness :
    (stStoppedValid.isRunning = false ∧
     stStoppedValid.store.configSlot ≠ ConfigSlot.readError ∧
     stStoppedValid.store.configSlot ≠ ConfigSlot.parseError ∧
     stStoppedValid.store.failSetRunning = false ∧
     (isConfigurationValidRun stStoppedValid).1 = true) ∧
    ((start stStoppedValid).1.isRunning = true ∧
     (start stStoppedValid).1.store.runningSlot = some "true" ∧
     (start stStoppedValid).2 = Except.ok ()) := by
  have w := start_spec stStoppedValid (by decide) ⟨by decide, by decide⟩ (by decide)
  refine ⟨⟨by decide, by decide, by decide, by decide, by decide⟩, ?_, ?_, w.2.1⟩
  · rw [w.2.2.1]
    decide
  · exact w.2.2.2.1 (by decide)

/-- C4 (amended): on a running dispatcher with a loaded configuration,
`forwardSMS` schedules the REST send iff the REST-enabled flag is true and
the URL is a non-empty string, and the Telegram send iff the Telegram-enabled
flag is true and the bot token is a non-empty string; the required fields are
not trimmed and the Telegram chat id is not consulted, so a destination with
only whitespace in a required field, or Telegram with an empty chat id, still
gets a send scheduled. -/
theorem forwardSMS_scheduling_iff (st : ServiceState) (cfg : ConfigData) (sms : SMSMessage)
    (env : Env) (hrun : st.isRunning = true) (hcfg : st.config = some cfg) :
    ((Dest.rest ∈ (forwardSMS st sms env).scheduled) ↔
      (cfg.restApiEnabled = true ∧ cfg.restApiUrl ≠ "")) ∧
    ((Dest.telegram ∈ (forwardSMS st sms env).scheduled) ↔
      (cfg.telegramEnabled = true ∧ cfg.telegramBotToken ≠ "")) := by
  rw [forwardSMS_running st cfg sms env hrun hcfg]
  have e1 : (cfg.restApiEnabled && cfg.restApiUrl != "") = true ↔
      (cfg.restApiEnabled = true ∧ cfg.restApiUrl ≠ "") := by
    simp [Bool.and_eq_true, bne_iff_ne]
  have e2 : (cfg.telegramEnabled && cfg.telegramBotToken != "") = true ↔
      (cfg.telegramEnabled = true ∧ cfg.telegramBotToken ≠ "") := by
    simp [Bool.and_eq_true, bne_iff_ne]
  rw [← e1, ← e2]
  cases h1 : (cfg.restApiEnabled && cfg.restApiUrl != "") <;>
    cases h2 : (cfg.telegramEnabled && cfg.telegramBotToken != "") <;>
      simp [h1, h2]

/-- C4 counterexample: with both destinations enabled, a whitespace-only REST
URL and an empty Telegram chat id — so neither destination is active under
the trimming invariant — `forwardSMS` on a running dispatcher nevertheless
schedules both sends. -/
theorem forwardSMS_scheduling_counterexample :
    (forwardSMS stWhitespace msg0 trivialEnv).scheduled = [Dest.rest, Dest.telegram] ∧
    restApiValid cfgWhitespace = false ∧
    telegramValid cfgWhitespace = false ∧
    jsTrim cfgWhitespace.restApiUrl = "" ∧
    cfgWhitespace.telegramChatId = "" := by decide

theorem forwardSMS_scheduling_iff_witness :
    (stWhitespace.isRunning = true ∧ stWhitespace.config = some cfgWhitespace) ∧
    ((Dest.rest ∈ (forwardSMS stWhitespace msg0 trivialEnv).scheduled) ↔
      (cfgWhitespace.restApiEnabled = true ∧ cfgWhitespace.restApiUrl ≠ "")) :=
  ⟨⟨by decide, by decide⟩,
   (forwardSMS_scheduling_iff stWhitespace cfgWhitespace msg0 trivialEnv
     (by decide) (by decide)).1⟩

/-- C10: on a running dispatcher whose loaded configuration passes neither
dispatch guard (REST disabled or URL empty, and Telegram disabled or bot
token empty), `forwardSMS` schedules no sends, issues no network calls,
emits no error events, and still increments the persisted forwarded-message
counter by exactly one. -/
theorem forwardSMS_noDest_increments (st : ServiceState) (cfg : ConfigData)
    (sms : SMSMessage) (env : Env) (n : Int)
    (hrun : st.isRunning = true) (hcfg : st.config = some cfg)
    (hrest : cfg.restApiEnabled = false ∨ cfg.restApiUrl = "")
    (htg : cfg.telegramEnabled = false ∨ cfg.telegramBotToken = "")
    (hg : st.store.failGetCount = false) (hs : st.store.failSetCount = false)
    (hp : jsParseInt (currentCountString st.store) = some n) :
    (forwardSMS st sms env).scheduled = [] ∧
    (forwardSMS st sms env).calls = [] ∧
    (forwardSMS st sms env).events = [] ∧
    (forwardSMS st sms env).state =
      { st with store := { st.store with countSlot := some (toString (n + 1)) } } := by
  have hc1 : (cfg.restApiEnabled && cfg.restApiUrl != "") = false := by
    rcases hrest with h | h <;> simp [h]
  have hc2 : (cfg.telegramEnabled && cfg.telegramBotToken != "") = false := by
    rcases htg with h | h <;> simp [h]
  rw [forwardSMS_running st cfg sms env hrun hcfg]
  simp [hc1, hc2, incrementSMSCount_eq st n hg hs hp]

theorem forwardSMS_noDest_increments_witness :
    (stNoDest.isRunning = true ∧ stNoDest.config = some cfgNoDest ∧
     (cfgNoDest.restApiEnabled = false ∨ cfgNoDest.restApiUrl = "") ∧
     (cfgNoDest.telegramEnabled = false ∨ cfgNoDest.telegramBotToken = "") ∧
     jsParseInt (currentCountString stNoDest.store) = some 5) ∧
    ((forwardSMS stNoDest msg0 trivialEnv).scheduled = [] ∧
     (forwardSMS stNoDest msg0 trivialEnv).calls = [] ∧
     (forwardSMS stNoDest msg0 trivialEnv).events = [] ∧
     (forwardSMS stNoDest msg0 trivialEnv).state =
       { stNoDest with store := { stNoDest.store with
           countSlot := some (toString ((5 : Int) + 1)) } }) :=
  ⟨⟨by decide, by decide, Or.inl (by decide), Or.inr (by decide), by decide⟩,
   forwardSMS_noDest_increments stNoDest cfgNoDest msg0 trivialEnv 5
     (by decide) (by decide) (Or.inl (by decide)) (Or.inr (by decide))
     (by decide) (by decide) (by decide)⟩

/-- C6 (amended): when the configured header text cannot be parsed, the REST
send issues no network call and emits exactly one error event, whose
category is the literal `"restapi"` (the spec's `"rest-api"` does not occur
in the code); the Telegram send is unaffected, since it never reads the
header text. -/
theorem restSend_headerParseFailure (cfg : ConfigData) (sms : SMSMessage) (env : Env)
    (e : String) (hp : env.parseJsonHeaders cfg.restApiHeaders = Except.error e) :
    forwardToRestAPI (some cfg) sms env =
      ([], [⟨"restapi", "Error forwarding to REST API: " ++ e, env.nowISO⟩]) ∧
    (∀ h, forwardToTelegram (some { cfg with restApiHeaders := h }) sms env =
          forwardToTelegram (some cfg) sms env) := by
  constructor
  · unfold forwardToRestAPI
    simp [hp]
  · intro h
    rfl

/-- C6 counterexample: with the header text `"\x7binvalid json"` failing to
parse, the emitted event's category is the string `"restapi"`, not
`"rest-api"` as the claim states. -/
theorem restSend_category_literal_counterexample :
    (forwardToRestAPI (some cfgBadHeaders) msg0 badParseEnv).1 = [] ∧
    (forwardToRestAPI (some cfgBadHeaders) msg0 badParseEnv).2.map ErrorEvent.type
      = ["restapi"] ∧
    (forwardToRestAPI (some cfgBadHeaders) msg0 badParseEnv).2.map ErrorEvent.type
      ≠ ["rest-api"] := by decide

theorem restSend_headerParseFailure_witness :
    badParseEnv.parseJsonHeaders cfgBadHeaders.restApiHeaders
      = Except.error "Unexpected token" ∧
    forwardToRestAPI (some cfgBadHeaders) msg0 badParseEnv =
      ([], [⟨"restapi", "Error forwarding to REST API: " ++ "Unexpected token",
        badParseEnv.nowISO⟩]) :=
  ⟨by simp [badParseEnv, trivialEnv, cfgBadHeaders, cfgBoth],
   (restSend_headerParseFailure cfgBadHeaders msg0 badParseEnv "Unexpected token"
     (by simp [badParseEnv, trivialEnv, cfgBadHeaders, cfgBoth])).1⟩

/-- C7 (amended): the Telegram send POSTs to the bot's send-message endpoint
the configured chat id and a text embedding the sender, a locale-rendered
date derived from the message's `date` (received-at) field — not its
`dateSent` field — and the body; a received response is classified as a
failure exactly when its HTTP status is non-2xx (`ok = false`); the response
body's success flag is never consulted; on failure with a parsed body whose
description field is present and non-empty, that description is used in the
error message. -/
theorem telegramSend_spec (cfg : ConfigData) (sms : SMSMessage) (env : Env)
    (ok : Bool) (status : Nat) (body : TgBodyParse)
    (hresp : env.telegramFetch cfg.telegramBotToken cfg.telegramChatId (telegramText sms env)
             = TelegramOutcome.response ok status body) :
    (forwardToTelegram (some cfg) sms env).1 =
      [NetCall.telegramPost cfg.telegramBotToken cfg.telegramChatId
        ("📱 *New SMS Received*\n\n" ++
         "📞 *From:* " ++ sms.address ++ "\n" ++
         "📅 *Date:* " ++ env.formatDateLocale sms.date ++ "\n" ++
         "💬 *Message:*\n" ++ sms.body)] ∧
    ((forwardToTelegram (some cfg) sms env).2 = [] ↔ ok = true) ∧
    (∀ b d, ok = false → body = TgBodyParse.parsed b → b.description = some d → d ≠ "" →
      (forwardToTelegram (some cfg) sms env).2 =
        [⟨"telegram", "Error forwarding to Telegram: Telegram API request failed: " ++ d,
          env.nowISO⟩]) := by
  unfold forwardToTelegram
  simp only [hresp]
  rcases ok with _ | _
  · simp only [Bool.false_eq_true, if_false]
    rcases body with m | b
    · refine ⟨rfl, by simp, ?_⟩
      intro b d _ hb
      cases hb
    · refine ⟨rfl, by simp, ?_⟩
      intro b' d _ hb hd hne
      cases hb
      simp [hd, hne]
  · simp only [if_true]
    refine ⟨rfl, by simp, ?_⟩
    intro b d hok
    exact absurd hok (by simp)

/-- C7 counterexample: a 2xx Telegram response whose body carries a false
success flag is classified as a success — no error event is emitted — and
the date embedded in the text is rendered from the message's `date` field
(`"111"`), not from its `dateSent` field (`"222"`). -/
theorem telegramSend_counterexample :
    bodyNotOkEnv.telegramFetch cfgBoth.telegramBotToken cfgBoth.telegramChatId
      (telegramText msg7 bodyNotOkEnv)
      = TelegramOutcome.response true 200 (TgBodyParse.parsed ⟨false, none⟩) ∧
    (forwardToTelegram (some cfgBoth) msg7 bodyNotOkEnv).2 = [] ∧
    (forwardToTelegram (some cfgBoth) msg7 bodyNotOkEnv).1 =
      [NetCall.telegramPost "tok" "chat"
        "📱 *New SMS Received*\n\n📞 *From:* a\n📅 *Date:* D:111\n💬 *Message:*\nb"] := by
  refine ⟨by decide, by decide, by decide⟩

theorem telegramSend_spec_witness :
    bodyNotOkEnv.telegramFetch cfgBoth.telegramBotToken cfgBoth.telegramChatId
      (telegramText msg0 bodyNotOkEnv)
      = TelegramOutcome.response true 200 (TgBodyParse.parsed ⟨false, none⟩) ∧
    ((forwardToTelegram (some cfgBoth) msg0 bodyNotOkEnv).2 = [] ↔ true = true) :=
  ⟨by decide,
   (telegramSend_spec cfgBoth msg0 bodyNotOkEnv true 200
     (TgBodyParse.parsed ⟨false, none⟩) (by decide)).2.1⟩

/-- C9 (amended): a store write failure never rolls back or blocks the
in-memory state change it accompanies; the counter write failure in
`incrementSMSCount` is swallowed entirely (the call returns normally with
the state unchanged), but the running-flag writes are not guarded: `stop()`
— and `start()` on a valid configuration — propagate the write failure to
the caller, with the in-memory flag already updated. -/
theorem persistFailure_spec (st : ServiceState)
    (hc : st.store.failSetCount = true) (hr : st.store.failSetRunning = true) :
    incrementSMSCount st = st ∧
    (stop st).2 = Except.error () ∧
    (stop st).1.isRunning = false ∧
    (stop st).1.store = st.store ∧
    ((isConfigurationValidRun st).1 = true →
      (start st).2 = Except.error () ∧ (start st).1.isRunning = true) := by
  refine ⟨?_, ?_, ?_, ?_, ?_⟩
  · unfold incrementSMSCount
    rcases hg : st.store.failGetCount with _ | _
    · simp [hg, hc]
    · simp [hg]
  · unfold stop
    simp [hr]
  · unfold stop
    simp [hr]
  · unfold stop
    simp [hr]
  · intro hv
    rcases hslot : st.store.configSlot with _ | _ | _ | raw
    · simp [isConfigurationValidRun, loadConfig, hslot] at hv
    · simp [isConfigurationValidRun, loadConfig, hslot, isConfigurationValidSync,
        defaultConfig, restApiValid, telegramValid] at hv
    · simp [isConfigurationValidRun, loadConfig, hslot] at hv
    · simp only [isConfigurationValidRun, loadConfig, hslot] at hv
      simp [start, loadConfig, hslot, hv, hr]

/-- C9 counterexample: when the store write of the running flag fails,
`stop()` propagates the error to its caller (while the in-memory flag has
already been set false), contradicting the claim that store write failures
never propagate. -/
theorem stop_persistFailure_counterexample :
    (stop stPersistFail).2 = Except.error () ∧
    (stop stPersistFail).1.isRunning = false := by
  refine ⟨rfl, rfl⟩

theorem persistFailure_spec_witness :
    (stPersistFail.store.failSetCount = true ∧
     stPersistFail.store.failSetRunning = true ∧
     (isConfigurationValidRun stPersistFail).1 = true) ∧
    (incrementSMSCount stPersistFail = stPersistFail ∧
     (stop stPersistFail).1.store = stPersistFail.store ∧
     (start stPersistFail).2 = Except.error () ∧
     (start stPersistFail).1.isRunning = true) := by
  have w := persistFailure_spec stPersistFail (by decide) (by decide)
  have w5 := w.2.2.2.2 (by decide)
  exact ⟨⟨by decide, by decide, by decide⟩, w.1, w.2.2.2.1, w5.1, w5.2⟩

/-- C1 (amended): on a running dispatcher whose loaded configuration has
both destinations active (valid after trimming), when both the REST and the
Telegram send fail, `forwardSMS` increments the persisted forwarded-message
counter by exactly one and emits exactly two error events, whose categories
are the string literals `"restapi"` and `"telegram"` (the code never uses
`"rest-api"`); every listener registered once receives exactly these two
events. -/
theorem forwardSMS_bothFail_spec (st : ServiceState) (cfg : ConfigData) (sms : SMSMessage)
    (env : Env) (n : Int)
    (hrun : st.isRunning = true) (hcfg : st.config = some cfg)
    (hra : restApiValid cfg = true) (hta : telegramValid cfg = true)
    (hrf : (forwardToRestAPI (some cfg) sms env).2 ≠ [])
    (htf : (forwardToTelegram (some cfg) sms env).2 ≠ [])
    (hg : st.store.failGetCount = false) (hs : st.store.failSetCount = false)
    (hp : jsParseInt (currentCountString st.store) = some n)
    (hnd : st.errorListeners.Nodup) :
    (forwardSMS st sms env).events.map ErrorEvent.type = ["restapi", "telegram"] ∧
    (forwardSMS st sms env).state =
      { st with store := { st.store with countSlot := some (toString (n + 1)) } } ∧
    (∀ l ∈ st.errorListeners,
      callsTo l st.errorListeners (forwardSMS st sms env).events =
        (forwardSMS st sms env).events) := by
  obtain ⟨mr, hre⟩ : ∃ m, (forwardToRestAPI (some cfg) sms env).2
      = [⟨"restapi", m, env.nowISO⟩] := by
    rcases forwardToRestAPI_events_shape (some cfg) sms env with h | h
    · exact absurd h hrf
    · exact h
  obtain ⟨mt, hte⟩ : ∃ m, (forwardToTelegram (some cfg) sms env).2
      = [⟨"telegram", m, env.nowISO⟩] := by
    rcases forwardToTelegram_events_shape (some cfg) sms env with h | h
    · exact absurd h htf
    · exact h
  have hc1 : (cfg.restApiEnabled && cfg.restApiUrl != "") = true := by
    have h := (restApiValid_iff cfg).mp hra
    simp [h.1, bne_iff_ne, ne_empty_of_jsTrim_ne h.2]
  have hc2 : (cfg.telegramEnabled && cfg.telegramBotToken != "") = true := by
    have h := (telegramValid_iff cfg).mp hta
    simp [h.1, bne_iff_ne, ne_empty_of_jsTrim_ne h.2.1]
  rw [forwardSMS_running st cfg sms env hrun hcfg]
  refine ⟨?_, ?_, ?_⟩
  · simp [hc1, hc2, runDest, hre, hte]
  · simp [hc1, hc2, incrementSMSCount_eq st n hg hs hp]
  · intro l hl
    exact callsTo_of_filter l st.errorListeners _
      (filter_beq_eq_singleton l st.errorListeners hl hnd)

/-- C1 counterexample: with both destinations active and both sends failing,
the two emitted categories are the literals `"restapi"` and `"telegram"`;
the category `"rest-api"` stated by the claim never occurs. -/
theorem forwardSMS_category_literal_counterexample :
    (forwardSMS stRunning msg0 failEnv).events.map ErrorEvent.type = ["restapi", "telegram"] ∧
    "rest-api" ∉ (forwardSMS stRunning msg0 failEnv).events.map ErrorEvent.type := by
  refine ⟨by decide, by decide⟩

theorem forwardSMS_bothFail_spec_witness :
    (stRunning.isRunning = true ∧ stRunning.config = some cfgBoth ∧
     restApiValid cfgBoth = true ∧ telegramValid cfgBoth = true ∧
     (forwardToRestAPI (some cfgBoth) msg0 failEnv).2 ≠ [] ∧
     (forwardToTelegram (some cfgBoth) msg0 failEnv).2 ≠ [] ∧
     jsParseInt (currentCountString stRunning.store) = some 0 ∧
     stRunning.errorListeners.Nodup) ∧
    ((forwardSMS stRunning msg0 failEnv).events.map ErrorEvent.type
       = ["restapi", "telegram"] ∧
     (forwardSMS stRunning msg0 failEnv).state =
       { stRunning with store := { stRunning.store with
           countSlot := some (toString ((0 : Int) + 1)) } } ∧
     callsTo 7 stRunning.errorListeners (forwardSMS stRunning msg0 failEnv).events
       = (forwardSMS stRunning msg0 failEnv).events) := by
  have w := forwardSMS_bothFail_spec stRunning cfgBoth msg0 failEnv 0
    (by decide) (by decide) (by decide) (by decide) (by decide) (by decide)
    (by decide) (by decide) (by decide) (by decide)
  exact ⟨⟨by decide, by decide, by decide, by decide, by decide, by decide,
    by decide, by decide⟩, w.1, w.2.1, w.2.2 7 (by decide)⟩

end SMSForwarder
